import Mathlib

/-!
Verification development for the stock-pulse predict-then-verify core.

The definitions below are a shallow embedding of the repository's Deno/
TypeScript edge functions; each definition's doc comment names the source
function and file it embeds.  JavaScript numbers are modelled as rationals
(ℚ), timestamps as rationals (hours or days as noted per definition), and
nullable columns as `Option`.  Free-text fields that no property mentions
(shortTermOutlook, mediumTermOutlook, keyFactors) are not modelled.
-/

namespace StockPulse

/-- Outcome classifier shared (with different band constants) by the
verification call sites:
if `p > T` then bullish, else if `p < -T` then bearish, else neutral. -/
def classifyOutcome (T p : ℚ) : String :=
  if p > T then "bullish" else if p < -T then "bearish" else "neutral"

/-- The batch-verify call site's classifier, neutral band 1.5
(src/supabase/functions/batch-verify/index.ts lines 116-118). -/
def batchVerifyOutcome (p : ℚ) : String := classifyOutcome (3/2) p

/-- The verification-job call site's classifier, neutral band 2
(src/unnamed/part_012 `verifyPrediction`, lines 114-116). -/
def verifyJobOutcome (p : ℚ) : String := classifyOutcome 2 p

/-- The `was_accurate` if-chain shared by the verification call sites,
parametrised by the neutral tolerance and the directional-leniency
threshold each site uses (part_012 lines 119-128: tolerance 3, leniency
0.5; batch-verify lines 120-129 and auto-update lines 263-272:
tolerance 2, leniency 0.8). -/
def wasAccurate (neutralTol lenTol : ℚ) (prediction actualOutcome : String)
    (priceChange : ℚ) : Bool :=
  if prediction = actualOutcome then true
  else if prediction = "neutral" ∧ |priceChange| < neutralTol then true
  else if prediction = "bullish" ∧ priceChange > lenTol then true
  else if prediction = "bearish" ∧ priceChange < -lenTol then true
  else false

/-- A row of the `prediction_history` table (see the insert in
src/unnamed/part_006 lines 320-333 and the verification updates).
Timestamps are rationals in hours. -/
structure PredictionRecord where
  id : Nat
  symbol : String
  prediction : String
  confidence : Option ℚ
  risk_level : Option String
  sentiment_momentum : Option String
  avg_sentiment : Option ℚ
  articles_analyzed : Nat
  price_at_prediction : Option ℚ
  source : Option String
  created_at : Option ℚ
  actual_outcome : Option String
  price_at_verification : Option ℚ
  price_change_percent : Option ℚ
  was_accurate : Option Bool
  verified_at : Option ℚ
deriving DecidableEq

/-- The object `verifyPrediction` (src/unnamed/part_012 lines 130-136)
returns for a verifiable record: the five verification columns. -/
structure VerificationUpdate where
  actual_outcome : String
  price_at_verification : ℚ
  price_change_percent : ℚ
  was_accurate : Bool
  verified_at : ℚ
deriving DecidableEq

/-- `verifyPrediction` of src/unnamed/part_012 (lines 103-137): skip
records whose `price_at_prediction` is null or non-positive (the JS guard
`!priceAtPrediction || priceAtPrediction <= 0` treats null, 0 and
negatives alike), otherwise compute the percent change, the outcome
(band 2) and the accuracy flag (tolerance 3, leniency 0.5). -/
def verifyPrediction (pred : PredictionRecord) (currentPrice now : ℚ) :
    Option VerificationUpdate :=
  match pred.price_at_prediction with
  | none => none
  | some priceAtPrediction =>
    if priceAtPrediction ≤ 0 then none
    else
      let priceChange := (currentPrice - priceAtPrediction) / priceAtPrediction * 100
      let actualOutcome := verifyJobOutcome priceChange
      some { actual_outcome := actualOutcome
             price_at_verification := currentPrice
             price_change_percent := priceChange
             was_accurate := wasAccurate 3 (1/2) pred.prediction actualOutcome priceChange
             verified_at := now }

/-- Applying a verification update to a row (the `.update(verification)`
call, src/unnamed/part_012 lines 227-230): only the five verification
columns change. -/
def applyUpdate (r : PredictionRecord) (v : VerificationUpdate) : PredictionRecord :=
  { r with
    actual_outcome := some v.actual_outcome
    price_at_verification := some v.price_at_verification
    price_change_percent := some v.price_change_percent
    was_accurate := some v.was_accurate
    verified_at := some v.verified_at }

/-- The batch selection predicate of src/unnamed/part_012 lines 160-173:
`.is('was_accurate', null)`, and unless the force flag is set,
`created_at < now - 12h` or `created_at` null.  (The query's ordering and
limit do not change what happens to an individual selected record and are
not modelled.) -/
def selected (force : Bool) (now : ℚ) (r : PredictionRecord) : Bool :=
  r.was_accurate.isNone &&
    (force ||
      (match r.created_at with
       | none => true
       | some t => decide (t < now - 12)))

/-- The per-record effect of one pass of the verification job
(src/unnamed/part_012 lines 202-250): an unselected record is untouched;
for a selected record, if the symbol's live price cannot be fetched the
record is left as is (counted as an error); otherwise a null `created_at`
is repaired by stamping the current time (lines 217-223) and the record
then continues into `verifyPrediction`, whose update (if any) is applied. -/
def processRecord (priceOf : String → Option ℚ) (now : ℚ) (force : Bool)
    (r : PredictionRecord) : PredictionRecord :=
  if selected force now r then
    match priceOf r.symbol with
    | none => r
    | some price =>
      let r' := if r.created_at.isNone then { r with created_at := some now } else r
      match verifyPrediction r' price now with
      | none => r'
      | some v => applyUpdate r' v
  else r

/-- One verification batch over the whole table: every row receives the
per-record effect (updates are keyed by the row's unique id). -/
def runBatch (priceOf : String → Option ℚ) (now : ℚ) (force : Bool)
    (db : List PredictionRecord) : List PredictionRecord :=
  db.map (processRecord priceOf now force)

/-- The effect, on one record, of a sequence of batch runs executed
sequentially (each run with its own price data, clock and force flag). -/
def processRecordRuns : List ((String → Option ℚ) × ℚ × Bool) → PredictionRecord →
    PredictionRecord
  | [], r => r
  | p :: ps, r => processRecordRuns ps (processRecord p.1 p.2.1 p.2.2 r)

/-! ## Sentiment aggregation (src/unnamed/part_006, serve handler) -/

/-- An `articles` row as the predict handler reads it
(src/unnamed/part_006 lines 192-198): the select excludes rows with a
null `sentiment_compound`.  `published` is a timestamp in days. -/
structure Article where
  published : ℚ
  sentiment_compound : ℚ
deriving DecidableEq

/-- Sum of compound scores, the `reduce((sum, a) => sum + (a.sentiment_compound
|| 0), 0)` pattern (null compounds are excluded by the query, so the
`|| 0` guard is the identity here). -/
def sumCompound (l : List Article) : ℚ :=
  l.foldl (fun s a => s + a.sentiment_compound) 0

/-- The handler's conditional window mean: `len > 0 ? sum / len : 0`
(src/unnamed/part_006 lines 227-232). -/
def windowAvg (l : List Article) : ℚ :=
  if l.length > 0 then sumCompound l / l.length else 0

/-- Articles published in the most recent 7 days
(src/unnamed/part_006 line 221: `new Date(a.published) >= sevenDaysAgo`). -/
def recentArticles (now : ℚ) (l : List Article) : List Article :=
  l.filter (fun a => decide (now - 7 ≤ a.published))

/-- Articles published between 14 and 7 days ago
(src/unnamed/part_006 lines 222-225). -/
def olderArticles (now : ℚ) (l : List Article) : List Article :=
  l.filter (fun a => decide (now - 14 ≤ a.published ∧ a.published < now - 7))

/-- The sentiment trend of src/unnamed/part_006 lines 215-234:
recent 7-day window mean minus prior 7-day window mean, each window's
mean taken as 0 when that window is empty. -/
def sentimentTrend (now : ℚ) (articles : List Article) : ℚ :=
  windowAvg (recentArticles now articles) - windowAvg (olderArticles now articles)

/-- The plain quotient mean (the spec's "mean compound score"); in ℚ the
empty window gives sum / 0 = 0. -/
def specMean (l : List Article) : ℚ :=
  sumCompound l / l.length

/-! ## Deterministic scorer (src/unnamed/part_006 `generateAlgorithmicPrediction`) -/

/-- JavaScript's `Math.round`: round half towards positive infinity. -/
def jsRound (x : ℚ) : ℤ := ⌊x + 1/2⌋

/-- A forecast as the predict handler holds it before persisting: the
deterministic scorer fills every field, an AI payload only what the parsed
JSON carried.  The free-text outlook and keyFactors fields are not
modelled (no property mentions them). -/
structure ChosenPrediction where
  source : String
  prediction : Option String
  confidence : Option ℚ
  riskLevel : Option String
  sentimentMomentum : Option String
deriving DecidableEq

/-- The prediction/confidence if-chain of `generateAlgorithmicPrediction`
(src/unnamed/part_006 lines 420-435), on
`sentimentStrength = |avgSentiment|` and `trendStrength = |trend|`. -/
def algLabelConfidence (avgSentiment trend : ℚ) : String × ℚ :=
  if avgSentiment > 3/20 ∧ trend ≥ 0 then
    ("bullish", min (17/20) (1/2 + |avgSentiment| + |trend| * (1/2)))
  else if avgSentiment < -(3/20) ∧ trend ≤ 0 then
    ("bearish", min (17/20) (1/2 + |avgSentiment| + |trend| * (1/2)))
  else if avgSentiment > 1/20 then
    ("bullish", min (13/20) (2/5 + |avgSentiment|))
  else if avgSentiment < -(1/20) then
    ("bearish", min (13/20) (2/5 + |avgSentiment|))
  else
    ("neutral", 1/2 + (1 - |avgSentiment|) * (3/10))

/-- `generateAlgorithmicPrediction` of src/unnamed/part_006 (lines
403-479): label and confidence from the sentiment chain, risk level from
the count-imbalance volatility, momentum from the trend; the returned
confidence is rounded to two decimals (`Math.round(confidence * 100) / 100`).
`symbol` and `totalArticles` only feed the unmodelled free-text fields. -/
def generateAlgorithmicPrediction (symbol : String) (avgSentiment trend : ℚ)
    (posCount negCount neuCount totalArticles : Nat) : ChosenPrediction :=
  let lc := algLabelConfidence avgSentiment trend
  let volatility : ℚ :=
    if posCount > 0 ∧ negCount > 0 then
      |(posCount : ℚ) - (negCount : ℚ)| / ((posCount : ℚ) + (negCount : ℚ))
    else 1/2
  let riskLevel :=
    if volatility < 3/10 then "high"
    else if volatility < 3/5 then "medium"
    else "low"
  let momentum :=
    if |trend| > 1/10 then (if trend > 0 then "accelerating" else "decelerating")
    else "stable"
  { source := "algorithmic"
    prediction := some lc.1
    confidence := some ((jsRound (lc.2 * 100) : ℚ) / 100)
    riskLevel := some riskLevel
    sentimentMomentum := some momentum }

/-! ## Language-model override (src/unnamed/part_006 lines 246-316) -/

/-- The fields of the JSON object parsed out of the model's reply, each
absent when the reply does not carry it (the code does not validate the
schema after `JSON.parse` succeeds). -/
structure AIPayload where
  prediction : Option String
  confidence : Option ℚ
  riskLevel : Option String
  sentimentMomentum : Option String
deriving DecidableEq

/-- Outcome of the language-model override attempt, read off the control
flow of src/unnamed/part_006 lines 246-316: no API key configured (line
251), network error (line 312), non-success HTTP response (line 293),
malformed response envelope (line 298, caught by the outer catch), JSON
parse failure (line 307), or a successfully parsed object. -/
inductive LMOutcome where
  | noKey
  | netError
  | httpError
  | envelopeError
  | parseError
  | parsed (p : AIPayload)
deriving DecidableEq

/-- Which forecast the predict handler ends up holding: every failure
branch assigns `generateAlgorithmicPrediction(...)`, and a successfully
parsed object is spread as-is with `source: 'ai'` (lines 303-305) — no
field validation.  The function is total: no override outcome makes the
call itself fail. -/
def choosePrediction (o : LMOutcome) (symbol : String) (avgSentiment trend : ℚ)
    (posCount negCount neuCount totalArticles : Nat) : ChosenPrediction :=
  match o with
  | .parsed p =>
      { source := "ai"
        prediction := p.prediction
        confidence := p.confidence
        riskLevel := p.riskLevel
        sentimentMomentum := p.sentimentMomentum }
  | _ => generateAlgorithmicPrediction symbol avgSentiment trend
           posCount negCount neuCount totalArticles

/-! ## Accuracy aggregator (src/unnamed/part_006 `calculateAccuracyStats`) -/

/-- Per-category totals (`byType` entries, lines 377-389). -/
structure TypeStats where
  total : Nat
  correct : Nat
deriving DecidableEq

/-- The `byType` object of `calculateAccuracyStats`. -/
structure ByType where
  bullish : TypeStats
  bearish : TypeStats
  neutral : TypeStats
deriving DecidableEq

/-- The rollup of `calculateAccuracyStats` (src/unnamed/part_006 lines
391-400); the two rates are stored in percent as the code computes them. -/
structure AccuracyStats where
  totalPredictions : Nat
  verifiedPredictions : Nat
  accuratePredictions : Nat
  accuracyRate : ℚ
  byType : ByType
  avgConfidence : ℚ
deriving DecidableEq

/-- Sum of confidences over a record list, the
`reduce((sum, p) => sum + (p.confidence || 0), 0)` of line 398. -/
def sumConfidence (l : List PredictionRecord) : ℚ :=
  l.foldl (fun s p => s + p.confidence.getD 0) 0

/-- Per-category counts over the verified records: the `forEach` of lines
383-389 increments `byType[p.prediction]` when the key is one of the three
categories (anything else is skipped), and `correct` when `was_accurate`
is truthy. -/
def typeStatsFor (verified : List PredictionRecord) (t : String) : TypeStats :=
  { total := (verified.filter (fun p => p.prediction = t)).length
    correct := (verified.filter
      (fun p => p.prediction = t && p.was_accurate == some true)).length }

/-- `calculateAccuracyStats` of src/unnamed/part_006 (lines 373-401):
verified = records with non-null `was_accurate`, accurate = those with
`was_accurate === true`; accuracy rate and average confidence are 0 when
their denominators would be 0, otherwise percentages. -/
def calculateAccuracyStats (history : List PredictionRecord) : AccuracyStats :=
  let verified := history.filter (fun p => !p.was_accurate.isNone)
  let accurate := verified.filter (fun p => p.was_accurate == some true)
  { totalPredictions := history.length
    verifiedPredictions := verified.length
    accuratePredictions := accurate.length
    accuracyRate :=
      if verified.length > 0 then ((accurate.length : ℚ) / verified.length) * 100
      else 0
    byType :=
      { bullish := typeStatsFor verified "bullish"
        bearish := typeStatsFor verified "bearish"
        neutral := typeStatsFor verified "neutral" }
    avgConfidence :=
      if history.length > 0 then sumConfidence history / history.length * 100
      else 0 }

/-! ## Lightweight scorer (src/supabase/functions/auto-update/index.ts) -/

/-- The combined score of `generatePrediction`
(src/supabase/functions/auto-update/index.ts line 118):
`avgSentiment + (trend * 0.5) + (priceChange * 0.3)`. -/
def combinedScore (avgSentiment trend priceChange : ℚ) : ℚ :=
  avgSentiment + trend * (1/2) + priceChange * (3/10)

/-- The formula the spec states for the combined score:
`avgSentiment + 0.5·trend + 0.3·(priceChangePercent/100)`. -/
def specCombinedScore (avgSentiment trend priceChangePercent : ℚ) : ℚ :=
  avgSentiment + (1/2) * trend + (3/10) * (priceChangePercent / 100)

/-- The forecast `generatePrediction` returns (free-text fields not
modelled). -/
structure AutoPrediction where
  prediction : String
  confidence : ℚ
  riskLevel : String
  sentimentMomentum : String
  source : String
deriving DecidableEq

/-- `generatePrediction` of auto-update/index.ts (lines 112-148):
classification and confidence from the combined score, momentum from the
trend (line 138). -/
def generatePrediction (avgSentiment trend priceChange : ℚ) : AutoPrediction :=
  let combined := combinedScore avgSentiment trend priceChange
  let momentum :=
    if trend > 1/10 then "accelerating"
    else if trend < -(1/10) then "decelerating"
    else "stable"
  if combined > 4/5 then
    { prediction := "bullish", confidence := min (9/10) (3/5 + combined * (1/5))
      riskLevel := "low", sentimentMomentum := momentum, source := "algorithmic" }
  else if combined < -(4/5) then
    { prediction := "bearish", confidence := min (9/10) (3/5 + |combined| * (1/5))
      riskLevel := "high", sentimentMomentum := momentum, source := "algorithmic" }
  else
    { prediction := "neutral", confidence := 1/2 + |combined| * (3/10)
      riskLevel := "medium", sentimentMomentum := momentum, source := "algorithmic" }

/-- The auto-update call site (lines 211-215) passes
`trend = livePrice.change / 100` and `priceChange = livePrice.change`. -/
def autoUpdateScore (avgSentiment change : ℚ) : ℚ :=
  combinedScore avgSentiment (change / 100) change

/-! ## Predict handler response (src/unnamed/part_006 lines 318-358) -/

/-- A live quote as the predict handler holds it. -/
structure LivePrice where
  price : ℚ
  change : ℚ
deriving DecidableEq

/-- The `historicalData` block of the response (lines 345-352). -/
structure HistoricalData where
  totalArticles : Nat
  avgSentiment : ℚ
  posCount : Nat
  negCount : Nat
  neuCount : Nat
  trend : ℚ
deriving DecidableEq

/-- The JSON payload the predict handler returns (lines 342-358). -/
structure PredictResponse where
  symbol : String
  forecast : ChosenPrediction
  historicalData : HistoricalData
  livePrice : Option LivePrice
  accuracyStats : AccuracyStats
  predictionHistory : List PredictionRecord
  generatedAt : ℚ
  source : String
deriving DecidableEq

/-- The tail of the predict handler after the forecast is chosen
(src/unnamed/part_006 lines 318-358): the insert is attempted and, on
failure, its message is stored in the local `dbError` (lines 318 and 339)
— which no later line reads; the `result` object (lines 342-358) is built
from the forecast and context alone, so `storeError` (none on success,
the store's message on failure) is a dead input. -/
def buildPredictResponse (symbol : String) (forecast : ChosenPrediction)
    (hist : HistoricalData) (livePrice : Option LivePrice)
    (stats : AccuracyStats) (history : List PredictionRecord)
    (includeHistory : Bool) (generatedAt : ℚ) (storeError : Option String) :
    PredictResponse :=
  let dbError := storeError
  { symbol := symbol
    forecast := forecast
    historicalData := hist
    livePrice := livePrice
    accuracyStats := stats
    predictionHistory := if includeHistory then history.take 20 else []
    generatedAt := generatedAt
    source := if forecast.source = "" then "algorithmic" else forecast.source }

/-! ## Concrete rows and inputs used by the closed statements -/

/-- A record already closed out by a past verification batch: every
verification field is non-null. -/
def verifiedRecord : PredictionRecord :=
  { id := 7, symbol := "AAPL", prediction := "bullish", confidence := some (7/10)
    risk_level := some "low", sentiment_momentum := some "stable"
    avg_sentiment := some (1/5), articles_analyzed := 9
    price_at_prediction := some 100, source := some "algorithmic"
    created_at := some 0, actual_outcome := some "bullish"
    price_at_verification := some 103, price_change_percent := some 3
    was_accurate := some true, verified_at := some 24 }

/-- A pending bullish record predicted at price 100. -/
def bullishExample : PredictionRecord :=
  { id := 1, symbol := "TCS.NS", prediction := "bullish", confidence := some (7/10)
    risk_level := some "medium", sentiment_momentum := some "stable"
    avg_sentiment := some (1/10), articles_analyzed := 12
    price_at_prediction := some 100, source := some "algorithmic"
    created_at := some 0, actual_outcome := none, price_at_verification := none
    price_change_percent := none, was_accurate := none, verified_at := none }

/-- The same pending record with a bearish forecast. -/
def bearishExample : PredictionRecord := { bullishExample with prediction := "bearish" }

/-- One article published 10 days ago: it falls in the older (days 8-14)
sub-window, and the recent 7-day sub-window is empty. -/
def loneOlderArticle : Article := { published := -10, sentiment_compound := 1/2 }

/-- A language-model reply that parses as JSON but carries none of the
required schema fields. -/
def fieldlessAIPayload : AIPayload :=
  { prediction := none, confidence := none, riskLevel := none, sentimentMomentum := none }

/-- A pending record whose `created_at` is null (the data-integrity case
the verification job repairs) but whose `price_at_prediction` is valid. -/
def orphanRecord : PredictionRecord :=
  { id := 3, symbol := "AAPL", prediction := "bullish", confidence := some (3/5)
    risk_level := some "medium", sentiment_momentum := some "stable"
    avg_sentiment := some (1/10), articles_analyzed := 4
    price_at_prediction := some 100, source := some "algorithmic"
    created_at := none, actual_outcome := none, price_at_verification := none
    price_change_percent := none, was_accurate := none, verified_at := none }

/-! ## Theorems -/

/-- Helper: for a non-negative band `T`, the classifier's three answers
characterise the three regions of the line. -/
theorem classifyOutcome_spec (T p : ℚ) (hT : 0 ≤ T) :
    (classifyOutcome T p = "bullish" ↔ p > T) ∧
    (classifyOutcome T p = "bearish" ↔ p < -T) ∧
    (classifyOutcome T p = "neutral" ↔ -T ≤ p ∧ p ≤ T) := by
  unfold classifyOutcome
  split_ifs with h1 h2
  · refine ⟨by simp [h1], ?_, ?_⟩
    · constructor
      · intro h; simp at h
      · intro h; exfalso; linarith
    · constructor
      · intro h; simp at h
      · rintro ⟨ha, hb⟩; exfalso; linarith
  · refine ⟨?_, by simp [h2], ?_⟩
    · constructor
      · intro h; simp at h
      · intro h; exfalso; linarith
    · constructor
      · intro h; simp at h
      · rintro ⟨ha, hb⟩; exfalso; linarith
  · push_neg at h1 h2
    refine ⟨?_, ?_, ?_⟩
    · constructor
      · intro h; simp at h
      · intro h; exfalso; linarith
    · constructor
      · intro h; simp at h
      · intro h; exfalso; linarith
    · exact ⟨fun _ => ⟨by linarith, by linarith⟩, fun _ => rfl⟩

/-- C1: at both verification call sites (neutral band 1.5 in batch-verify,
2 in the verification job), the outcome classifier returns bullish iff
`p > T`, bearish iff `p < -T`, and neutral otherwise (`-T ≤ p ≤ T`): every
price-change percent falls in exactly one of the three classes. -/
theorem outcome_classifier_partition (p : ℚ) :
    ((batchVerifyOutcome p = "bullish" ↔ p > 3/2) ∧
     (batchVerifyOutcome p = "bearish" ↔ p < -(3/2)) ∧
     (batchVerifyOutcome p = "neutral" ↔ -(3/2) ≤ p ∧ p ≤ 3/2)) ∧
    ((verifyJobOutcome p = "bullish" ↔ p > 2) ∧
     (verifyJobOutcome p = "bearish" ↔ p < -2) ∧
     (verifyJobOutcome p = "neutral" ↔ -2 ≤ p ∧ p ≤ 2)) := by
  constructor
  · exact classifyOutcome_spec (3/2) p (by norm_num)
  · exact classifyOutcome_spec 2 p (by norm_num)

/-- C2: a record whose `was_accurate` is already non-null is never
selected by a verification batch (with or without the force flag), is
left untouched by the per-record batch effect, and stays unchanged under
every sequence of sequential batch runs; conversely, a selected record
always has `was_accurate` null. -/
theorem verified_record_never_rewritten (r : PredictionRecord) (b : Bool)
    (h : r.was_accurate = some b) :
    (∀ force now, selected force now r = false) ∧
    (∀ pf now force, processRecord pf now force r = r) ∧
    (∀ runs, processRecordRuns runs r = r) ∧
    (∀ force now r', selected force now r' = true → r'.was_accurate = none) := by
  have hsel : ∀ force now, selected force now r = false := by
    intro force now
    simp [selected, h]
  have hproc : ∀ pf now force, processRecord pf now force r = r := by
    intro pf now force
    simp [processRecord, hsel]
  refine ⟨hsel, hproc, ?_, ?_⟩
  · intro runs
    induction runs with
    | nil => rfl
    | cons q qs ih => simpa [processRecordRuns, hproc] using ih
  · intro force now r' hs
    simp only [selected, Bool.and_eq_true, Option.isNone_iff_eq_none] at hs
    exact hs.1

/-- Witness for C2: a concrete fully-verified record is never re-selected
or rewritten. -/
theorem verified_record_never_rewritten_check :
    (∀ force now, selected force now verifiedRecord = false) ∧
    (∀ pf now force, processRecord pf now force verifiedRecord = verifiedRecord) ∧
    (∀ runs, processRecordRuns runs verifiedRecord = verifiedRecord) ∧
    (∀ force now r', selected force now r' = true → r'.was_accurate = none) :=
  verified_record_never_rewritten verifiedRecord true rfl

/-- C3: with `price_at_prediction = 100` and current price 100.8, the
verification job computes `price_change_percent = 0.8` and outcome
neutral; the bullish record is marked accurate (directional leniency,
0.8 > 0.5) while the bearish record is marked inaccurate. -/
theorem directional_leniency_example :
    verifyPrediction bullishExample 100.8 99 =
      some { actual_outcome := "neutral", price_at_verification := 100.8
             price_change_percent := 0.8, was_accurate := true, verified_at := 99 } ∧
    verifyPrediction bearishExample 100.8 99 =
      some { actual_outcome := "neutral", price_at_verification := 100.8
             price_change_percent := 0.8, was_accurate := false, verified_at := 99 } := by
  constructor <;>
    [norm_num [verifyPrediction, bullishExample, verifyJobOutcome,
      classifyOutcome, wasAccurate];
     (norm_num [verifyPrediction, bearishExample, bullishExample, verifyJobOutcome,
        classifyOutcome, wasAccurate]; simp)]

/-- Counterexample to C4: with a single article published 10 days ago
(compound 1/2), the recent 7-day sub-window is empty yet the trend is
-1/2, not 0 — the code zeroes an empty sub-window's mean, not the trend. -/
theorem trend_zero_on_empty_window_refuted :
    recentArticles 0 [loneOlderArticle] = [] ∧
    olderArticles 0 [loneOlderArticle] = [loneOlderArticle] ∧
    sentimentTrend 0 [loneOlderArticle] = -(1/2) ∧
    sentimentTrend 0 [loneOlderArticle] ≠ 0 := by
  norm_num [sentimentTrend, windowAvg, recentArticles, olderArticles, sumCompound,
    loneOlderArticle, List.filter]

/-- C4 as amended: the trend equals the recent sub-window's mean compound
score minus the prior sub-window's, with an empty sub-window's mean taken
as 0; the trend is 0 when both sub-windows are empty. -/
theorem trend_is_window_mean_difference (now : ℚ) (articles : List Article) :
    sentimentTrend now articles =
      specMean (recentArticles now articles) - specMean (olderArticles now articles) ∧
    (recentArticles now articles = [] → olderArticles now articles = [] →
      sentimentTrend now articles = 0) := by
  have hmean : ∀ l : List Article, windowAvg l = specMean l := by
    intro l
    cases l with
    | nil => simp [windowAvg, specMean, sumCompound]
    | cons a t => simp [windowAvg, specMean]
  constructor
  · simp [sentimentTrend, hmean]
  · intro h1 h2
    simp [sentimentTrend, h1, h2, windowAvg]

/-- C5: the predict handler's response is the same object whether the
`prediction_history` insert failed (some error message) or succeeded —
the `dbError` local is assigned on failure and never read, so nothing in
the returned payload surfaces the persistence error. -/
theorem persistence_failure_payload_unchanged (symbol : String)
    (forecast : ChosenPrediction) (hist : HistoricalData) (lp : Option LivePrice)
    (stats : AccuracyStats) (history : List PredictionRecord) (includeHistory : Bool)
    (generatedAt : ℚ) (e : String) :
    buildPredictResponse symbol forecast hist lp stats history includeHistory
        generatedAt (some e) =
      buildPredictResponse symbol forecast hist lp stats history includeHistory
        generatedAt none := rfl

/-- Counterexample to C6: a language-model reply that parses as JSON but
carries none of the required schema fields is used as the forecast with
source "ai" — it is not replaced by the deterministic scorer's forecast. -/
theorem ai_missing_fields_used_verbatim :
    (choosePrediction (.parsed fieldlessAIPayload) "AAPL" 0 0 0 0 0 0).source = "ai" ∧
    (choosePrediction (.parsed fieldlessAIPayload) "AAPL" 0 0 0 0 0 0).prediction = none ∧
    choosePrediction (.parsed fieldlessAIPayload) "AAPL" 0 0 0 0 0 0 ≠
      generateAlgorithmicPrediction "AAPL" 0 0 0 0 0 0 := by
  refine ⟨rfl, rfl, fun h => ?_⟩
  have hs := congrArg ChosenPrediction.source h
  simp [choosePrediction, generateAlgorithmicPrediction, fieldlessAIPayload] at hs

/-- C6 as amended: every override failure the code detects — no key,
network error, non-success HTTP response, malformed response envelope, or
JSON parse failure — yields exactly the deterministic scorer's forecast
(source "algorithmic"), and no outcome makes the call fail; but a reply
that parses is used as-is with source "ai", its schema unvalidated. -/
theorem llm_failure_falls_back_to_algorithmic (symbol : String) (avgSentiment trend : ℚ)
    (posCount negCount neuCount totalArticles : Nat) :
    (choosePrediction .noKey symbol avgSentiment trend posCount negCount neuCount
        totalArticles =
      generateAlgorithmicPrediction symbol avgSentiment trend posCount negCount
        neuCount totalArticles) ∧
    (choosePrediction .netError symbol avgSentiment trend posCount negCount neuCount
        totalArticles =
      generateAlgorithmicPrediction symbol avgSentiment trend posCount negCount
        neuCount totalArticles) ∧
    (choosePrediction .httpError symbol avgSentiment trend posCount negCount neuCount
        totalArticles =
      generateAlgorithmicPrediction symbol avgSentiment trend posCount negCount
        neuCount totalArticles) ∧
    (choosePrediction .envelopeError symbol avgSentiment trend posCount negCount
        neuCount totalArticles =
      generateAlgorithmicPrediction symbol avgSentiment trend posCount negCount
        neuCount totalArticles) ∧
    (choosePrediction .parseError symbol avgSentiment trend posCount negCount neuCount
        totalArticles =
      generateAlgorithmicPrediction symbol avgSentiment trend posCount negCount
        neuCount totalArticles) ∧
    ((choosePrediction .noKey symbol avgSentiment trend posCount negCount neuCount
        totalArticles).source = "algorithmic") ∧
    ∀ p : AIPayload,
      choosePrediction (.parsed p) symbol avgSentiment trend posCount negCount
          neuCount totalArticles =
        { source := "ai", prediction := p.prediction, confidence := p.confidence
          riskLevel := p.riskLevel, sentimentMomentum := p.sentimentMomentum } :=
  ⟨rfl, rfl, rfl, rfl, rfl, rfl, fun _ => rfl⟩

/-- C7: the accuracy aggregator on the empty collection returns rate 0
with every total 0 (no division-by-zero error), and on every collection
the average-confidence statistic is the mean confidence over all records
— verified and pending alike — expressed in percent. -/
theorem accuracy_stats_empty_and_avg_confidence :
    calculateAccuracyStats [] =
      { totalPredictions := 0, verifiedPredictions := 0, accuratePredictions := 0
        accuracyRate := 0
        byType := { bullish := ⟨0, 0⟩, bearish := ⟨0, 0⟩, neutral := ⟨0, 0⟩ }
        avgConfidence := 0 } ∧
    ∀ history : List PredictionRecord,
      (calculateAccuracyStats history).avgConfidence =
        100 * (sumConfidence history / history.length) := by
  constructor
  · rfl
  · intro history
    simp only [calculateAccuracyStats]
    split_ifs with h
    · ring
    · have : history.length = 0 := by omega
      simp [this]

/-- Counterexample to C8: with avgSentiment 0, trend 0 and a 10-percent
price change, the code's combined score is 3, not the 3/100 the spec's
`0.3 * (priceChangePercent / 100)` formula gives. -/
theorem combined_score_formula_refuted :
    combinedScore 0 0 10 = 3 ∧ specCombinedScore 0 0 10 = 3/100 ∧
    combinedScore 0 0 10 ≠ specCombinedScore 0 0 10 := by
  norm_num [combinedScore, specCombinedScore]

/-- C8 as amended: the combined score is
`avgSentiment + 0.5·trend + 0.3·priceChangePercent` (the percent is not
divided by 100); at the auto-update call site, which passes
`trend = priceChangePercent / 100`, it equals
`avgSentiment + (61/200)·priceChangePercent`; and the classification
branches on this score with the ±0.8 thresholds. -/
theorem combined_score_uses_raw_percent (a t c : ℚ) :
    combinedScore a t c = a + t/2 + 3*c/10 ∧
    autoUpdateScore a c = a + 61*c/200 ∧
    (generatePrediction a t c).prediction =
      (if combinedScore a t c > 4/5 then "bullish"
       else if combinedScore a t c < -(4/5) then "bearish" else "neutral") := by
  refine ⟨by unfold combinedScore; ring, by unfold autoUpdateScore combinedScore; ring, ?_⟩
  simp only [generatePrediction]
  split_ifs <;> rfl

/-- Counterexample to C9: a selected record with null `created_at` (and a
valid `price_at_prediction`) is repaired — `created_at` stamped with the
current time — and in the same pass still receives `was_accurate` and
`actual_outcome`: it is verified, not skipped. -/
theorem repair_then_skip_refuted :
    (processRecord (fun _ => some 110) 1000 false orphanRecord).created_at = some 1000 ∧
    (processRecord (fun _ => some 110) 1000 false orphanRecord).was_accurate =
      some true ∧
    (processRecord (fun _ => some 110) 1000 false orphanRecord).actual_outcome =
      some "bullish" := by
  norm_num [processRecord, selected, orphanRecord, verifyPrediction, verifyJobOutcome,
    classifyOutcome, wasAccurate, applyUpdate]

/-- C9 as amended: a selected record with null `created_at` is repaired in
place by stamping the current time, and then continues through
verification in the same pass — when its `price_at_prediction` is valid
and a live price is available it receives its verification fields
immediately. -/
theorem repaired_record_verified_same_pass (pf : String → Option ℚ) (now : ℚ)
    (force : Bool) (r : PredictionRecord) (price pap : ℚ)
    (h1 : r.created_at = none) (h2 : r.was_accurate = none)
    (hp : pf r.symbol = some price) (hpap : r.price_at_prediction = some pap)
    (hpos : 0 < pap) :
    (processRecord pf now force r).created_at = some now ∧
    (processRecord pf now force r).was_accurate =
      some (wasAccurate 3 (1/2) r.prediction
        (verifyJobOutcome ((price - pap) / pap * 100)) ((price - pap) / pap * 100)) ∧
    (processRecord pf now force r).verified_at = some now := by
  have hsel : selected force now r = true := by
    simp [selected, h1, h2]
  simp [processRecord, hsel, hp, h1, verifyPrediction, hpap, not_le.mpr hpos, applyUpdate]

/-- Witness for the amended C9: the concrete orphan record is repaired and
verified in one pass. -/
theorem repaired_record_verified_check :
    (processRecord (fun _ => some 110) 1000 false orphanRecord).created_at = some 1000 ∧
    (processRecord (fun _ => some 110) 1000 false orphanRecord).was_accurate =
      some (wasAccurate 3 (1/2) orphanRecord.prediction
        (verifyJobOutcome ((110 - 100) / 100 * 100)) ((110 - 100) / 100 * 100)) ∧
    (processRecord (fun _ => some 110) 1000 false orphanRecord).verified_at = some 1000 :=
  repaired_record_verified_same_pass (fun _ => some 110) 1000 false orphanRecord
    110 100 rfl rfl rfl rfl (by norm_num)

/-- C10: the deterministic scorer's direction agrees with the sign of
avgSentiment — bullish exactly when avgSentiment > 0.05, bearish exactly
when avgSentiment < -0.05, and neutral exactly when avgSentiment lies in
[-0.05, 0.05], regardless of trend and article counts. -/
theorem algorithmic_direction_matches_sentiment_sign (symbol : String)
    (avgSentiment trend : ℚ) (posCount negCount neuCount totalArticles : Nat) :
    ((generateAlgorithmicPrediction symbol avgSentiment trend posCount negCount
        neuCount totalArticles).prediction = some "bullish" ↔ avgSentiment > 1/20) ∧
    ((generateAlgorithmicPrediction symbol avgSentiment trend posCount negCount
        neuCount totalArticles).prediction = some "bearish" ↔ avgSentiment < -(1/20)) ∧
    ((generateAlgorithmicPrediction symbol avgSentiment trend posCount negCount
        neuCount totalArticles).prediction = some "neutral" ↔
      -(1/20) ≤ avgSentiment ∧ avgSentiment ≤ 1/20) := by
  have hpred : (generateAlgorithmicPrediction symbol avgSentiment trend posCount
      negCount neuCount totalArticles).prediction =
      some (algLabelConfidence avgSentiment trend).1 := rfl
  rw [hpred]
  unfold algLabelConfidence
  split_ifs with h1 h2 h3 h4 <;> simp only [Option.some.injEq]
  · obtain ⟨ha, _⟩ := h1
    refine ⟨?_, ?_, ?_⟩
    · constructor
      · intro _; linarith
      · intro _; simp
    · constructor
      · intro h; simp at h
      · intro h; exfalso; linarith
    · constructor
      · intro h; simp at h
      · rintro ⟨_, hb⟩; exfalso; linarith
  · obtain ⟨ha, _⟩ := h2
    refine ⟨?_, ?_, ?_⟩
    · constructor
      · intro h; simp at h
      · intro h; exfalso; linarith
    · constructor
      · intro _; linarith
      · intro _; simp
    · constructor
      · intro h; simp at h
      · rintro ⟨hb, _⟩; exfalso; linarith
  · refine ⟨?_, ?_, ?_⟩
    · constructor
      · intro _; linarith
      · intro _; simp
    · constructor
      · intro h; simp at h
      · intro h; exfalso; linarith
    · constructor
      · intro h; simp at h
      · rintro ⟨_, hb⟩; exfalso; linarith
  · push_neg at h3
    refine ⟨?_, ?_, ?_⟩
    · constructor
      · intro h; simp at h
      · intro h; exfalso; linarith
    · constructor
      · intro _; linarith
      · intro _; simp
    · constructor
      · intro h; simp at h
      · rintro ⟨hb, _⟩; exfalso; linarith
  · push_neg at h3 h4
    refine ⟨?_, ?_, ?_⟩
    · constructor
      · intro h; simp at h
      · intro h; exfalso; linarith
    · constructor
      · intro h; simp at h
      · intro h; exfalso; linarith
    · constructor
      · intro _; exact ⟨by linarith, by linarith⟩
      · intro _; simp

end StockPulse
